import Mathlib

/-!
Shallow embedding of the media upload service (src/app.js) and proofs about
its upload and delete workflows.

Paths are modelled as Lean `String`s over the POSIX separator `/`, matching
the Linux host the service runs on.  The helper functions `splitOnSlash`,
`normalizeSegs`, `renderPath` and `pathJoin` embed Node's `path.posix.join`
(concatenate the arguments with `/`, then normalize: drop empty and `.`
segments, resolve `..` against the preceding segment, clamp `..` at the root
of an absolute path, keep a single trailing separator).  `extname` embeds
Node's `path.posix.extname` (the suffix of the last non-empty `/`-separated
component starting at its last dot; empty when there is no dot, when the dot
is the component's first character, or when the component is exactly `..`).
`bytesToHex` embeds `Buffer.toString` with the hex encoding (two lowercase
hex digits per byte).

The two HTTP routes are embedded as pure functions from the request data and
the outcomes of the two fallible external actions (filesystem and database)
to the HTTP response together with the ordered list of attempted side
effects.  The framework glue is embedded as documented Express/multer
behaviour: a multer `fileFilter` rejection or a storage-engine write error is
forwarded to `next(err)` and, the app registering no error-handling
middleware, lands in Express's default error handler, which answers with
status 500 for an error object that carries no status code.
-/

/-- Split a character list at every `/`, keeping empty segments, as Node's
path normalization does before processing segments. -/
def splitOnSlash : List Char → List (List Char)
  | [] => [[]]
  | c :: cs =>
    if c = '/' then [] :: splitOnSlash cs
    else (c :: (splitOnSlash cs).headD []) :: (splitOnSlash cs).tail

/-- Last element of a list, or the default when the list is empty. -/
def lastD {α : Type} : List α → α → α
  | [], d => d
  | x :: xs, _ => lastD xs x

/-- One segment-processing step of Node's path normalization: skip empty and
`.` segments, resolve `..` against the accumulated segments (clamped at the
root when the path is absolute), and push any other segment. -/
def normStep (abs : Bool) (acc : List String) (seg : String) : List String :=
  if seg = ("") ∨ seg = (".") then acc
  else if seg = ("..") then
    match acc.getLast? with
    | some prev => if prev = ("..") then acc ++ [("..")] else acc.dropLast
    | none => if abs then [] else [("..")]
  else acc ++ [seg]

/-- Segments of a path string, as split at `/`. -/
def pathSegs (p : String) : List String :=
  (splitOnSlash p.data).map String.mk

/-- Normalize a segment list, as Node's `path.posix.normalize` does. -/
def normalizeSegs (abs : Bool) (segs : List String) : List String :=
  segs.foldl (normStep abs) []

/-- Whether a path string is absolute (starts with `/`). -/
def isAbsChars : List Char → Bool
  | '/' :: _ => true
  | _ => false

/-- Reassemble a normalized segment list into a path string, restoring the
leading separator of an absolute path and a single trailing separator, as
Node's `path.posix.normalize` does. -/
def renderPath (abs trail : Bool) (segs : List String) : String :=
  let body := String.intercalate ("/") segs
  if body = ("") then
    if abs then ("/") else if trail then ("./") else (".")
  else
    let body2 := if trail then body ++ ("/") else body
    if abs then ("/") ++ body2 else body2

/-- Embedding of Node's `path.posix.join` for two arguments: concatenate with
a `/` (ignoring empty arguments) and normalize. -/
def pathJoin (a b : String) : String :=
  let joined := if a = ("") then b else if b = ("") then a else a ++ ("/") ++ b
  if joined = ("") then (".")
  else
    renderPath (isAbsChars joined.data) (joined.data.getLastD ' ' = '/')
      (normalizeSegs (isAbsChars joined.data) (pathSegs joined))

/-- Last non-empty `/`-separated component of a path, the component Node's
`path.posix.extname` extracts the extension from (trailing separators and
empty runs are skipped). -/
def lastNonemptySegment (cs : List Char) : List Char :=
  lastD ((splitOnSlash cs).filter (fun s => !s.isEmpty)) []

/-- Index of the last `.` in a character list, if any (accumulator form). -/
def lastDotIdxAux : List Char → Nat → Option Nat → Option Nat
  | [], _, acc => acc
  | c :: cs, i, acc => lastDotIdxAux cs (i + 1) (if c = '.' then some i else acc)

/-- Index of the last `.` in a character list, if any. -/
def lastDotIdx (cs : List Char) : Option Nat := lastDotIdxAux cs 0 none

/-- Core of Node's `path.posix.extname` on the characters of a path: the
suffix of the last non-empty component starting at its last dot; empty when
there is no dot, when the dot is the component's first character, or when
the component is exactly `..`. -/
def extnameChars (cs : List Char) : List Char :=
  match lastDotIdx (lastNonemptySegment cs) with
  | none => []
  | some d =>
    if d = 0 ∨ lastNonemptySegment cs = ['.', '.'] then []
    else (lastNonemptySegment cs).drop d

/-- Embedding of Node's `path.posix.extname`, used at src/app.js line 50. -/
def extname (p : String) : String := String.mk (extnameChars p.data)

/-- One lowercase hexadecimal digit, as produced by the hex encoding of
`Buffer.toString`. -/
def hexDigit (n : Nat) : Char :=
  if n < 10 then Char.ofNat (48 + n) else Char.ofNat (87 + n)

/-- Hex encoding of a byte list, two lowercase digits per byte, as produced
by `Buffer.toString` with the hex encoding. -/
def bytesToHexChars : List Nat → List Char
  | [] => []
  | b :: bs => hexDigit (b / 16) :: hexDigit (b % 16) :: bytesToHexChars bs

/-- Hex encoding of a byte list as a string. -/
def bytesToHex (bs : List Nat) : String := String.mk (bytesToHexChars bs)

/-- The sixteen lowercase hexadecimal digit characters. -/
def lowerHexDigits : List Char := ("0123456789abcdef").data

/-- Whether a character is a lowercase hexadecimal digit. -/
def isLowerHexDigit (c : Char) : Bool := lowerHexDigits.contains c

/-- Name Generator (src/app.js lines 47-52): the hex rendering of the sixteen
random bytes from `crypto.randomBytes(16)` concatenated with
`path.extname(file.originalname)`. -/
def genFilename (randomBytes : List Nat) (originalname : String) : String :=
  bytesToHex randomBytes ++ extname originalname

/-- MIME allow-list of the multer `fileFilter` (src/app.js lines 59-66). -/
def allowedTypes : List String :=
  [("image/jpeg"), ("image/png"), ("video/mp4"), ("video/x-msvideo"),
   ("video/quicktime"), ("audio/mpeg")]

/-- The metadata an uploaded file carries into the pipeline: the
client-supplied original name and declared MIME type. -/
structure UploadedFile where
  originalname : String
  mimetype : String
deriving DecidableEq

/-- An attempted external side effect of a request, with its outcome:
a filesystem write of the uploaded bytes, a metadata-row insert, a
filesystem unlink, or a metadata-row delete.  The list of effects of a run
records them in the order the code attempts them. -/
inductive Effect where
  | fsWrite (path : String) (ok : Bool)
  | dbInsert (fileName : String) (filePath : String) (ok : Bool)
  | fsUnlink (path : String) (ok : Bool)
  | dbDelete (fileName : String) (ok : Bool)
deriving DecidableEq

/-- The JSON (or default-handler) body of a response, abstracted to its
shape. -/
inductive Body where
  | uploadSuccess (name : String) (path : String) (url : String)
  | noFileUploaded
  | internalError
  | expressDefault
  | fileNotFound
  | filenameRequired
  | deleteSuccess
deriving DecidableEq

/-- An HTTP response: status code and body shape. -/
structure Response where
  status : Nat
  body : Body
deriving DecidableEq

/-- Pipeline of `POST /media` (src/app.js lines 82-106) together with the
multer middleware it is mounted behind (lines 43-73): when a file is
attached, the `fileFilter` consults the allow-list before any storage
action; a rejection is forwarded to Express's default error handler (status
500, no effects).  An accepted file is written by the disk storage engine
under the generated name inside `path.join(__dirname, 'uploads')`; a write
error is likewise forwarded to the default handler and the route handler
never runs.  The handler answers 400 when no file is attached, otherwise
inserts the metadata row and answers 200, or 500 via `handleError` (lines
76-79) when the insert fails.  `fsWriteOk` and `dbInsertOk` are the outcomes
of the two external actions. -/
def uploadPipeline (dirname : String) (fileOpt : Option UploadedFile)
    (randomBytes : List Nat) (fsWriteOk dbInsertOk : Bool)
    (protocol host : String) : Response × List Effect :=
  let uploadsDir := pathJoin dirname ("uploads")
  match fileOpt with
  | none => (⟨400, Body.noFileUploaded⟩, [])
  | some f =>
    if allowedTypes.contains f.mimetype then
      let name := genFilename randomBytes f.originalname
      let filePath := pathJoin uploadsDir name
      if fsWriteOk then
        let fileUrl := protocol ++ ("://") ++ host ++ ("/uploads/") ++ name
        if dbInsertOk then
          (⟨200, Body.uploadSuccess name filePath fileUrl⟩,
            [Effect.fsWrite filePath true, Effect.dbInsert name filePath true])
        else
          (⟨500, Body.internalError⟩,
            [Effect.fsWrite filePath true, Effect.dbInsert name filePath false])
      else
        (⟨500, Body.expressDefault⟩, [Effect.fsWrite filePath false])
    else
      (⟨500, Body.expressDefault⟩, [])

/-- Pipeline of `DELETE /media/:filename` (src/app.js lines 109-133): a falsy
(empty) filename answers 400; otherwise `fs.unlink` is attempted on
`path.join(uploadsDir, filename)`; an unlink error answers 404 without
touching the database; on unlink success the metadata row is deleted,
answering 200, or 500 via `handleError` when the database delete fails.
`unlinkOk` and `dbDeleteOk` are the outcomes of the two external actions. -/
def deletePipeline (dirname : String) (filename : String)
    (unlinkOk dbDeleteOk : Bool) : Response × List Effect :=
  let uploadsDir := pathJoin dirname ("uploads")
  if filename = ("") then (⟨400, Body.filenameRequired⟩, [])
  else
    let filePath := pathJoin uploadsDir filename
    if unlinkOk then
      if dbDeleteOk then
        (⟨200, Body.deleteSuccess⟩,
          [Effect.fsUnlink filePath true, Effect.dbDelete filename true])
      else
        (⟨500, Body.internalError⟩,
          [Effect.fsUnlink filePath true, Effect.dbDelete filename false])
    else
      (⟨404, Body.fileNotFound⟩, [Effect.fsUnlink filePath false])

/-- Whether an effect list contains a metadata insert (attempted at all). -/
def hasDbInsert (es : List Effect) : Bool :=
  es.any fun e =>
    match e with
    | Effect.dbInsert _ _ _ => true
    | _ => false

/-- Whether an effect list contains a metadata delete (attempted at all). -/
def hasDbDelete (es : List Effect) : Bool :=
  es.any fun e =>
    match e with
    | Effect.dbDelete _ _ => true
    | _ => false

/-- Scan step: the state is (every insert so far was preceded by a
successful write, a successful write has occurred). -/
def insertStep (st : Bool × Bool) (e : Effect) : Bool × Bool :=
  match e with
  | Effect.fsWrite _ true => (st.1, true)
  | Effect.dbInsert _ _ _ => (st.1 && st.2, st.2)
  | _ => st

/-- Whether every metadata insert in the effect list is preceded by an
earlier successful filesystem write. -/
def dbInsertOnlyAfterWrite (es : List Effect) : Bool :=
  (es.foldl insertStep (true, false)).1

/-- Scan step: the state is (every metadata delete so far was preceded by a
successful unlink, a successful unlink has occurred). -/
def deleteStep (st : Bool × Bool) (e : Effect) : Bool × Bool :=
  match e with
  | Effect.fsUnlink _ true => (st.1, true)
  | Effect.dbDelete _ _ => (st.1 && st.2, st.2)
  | _ => st

/-- Whether every metadata delete in the effect list is preceded by an
earlier successful filesystem unlink. -/
def dbDeleteOnlyAfterUnlink (es : List Effect) : Bool :=
  (es.foldl deleteStep (true, false)).1

/-- Whether a status code is a 400-class client error. -/
def isClientErrorStatus (n : Nat) : Bool := decide (400 ≤ n) && decide (n < 500)

/-- Whether a path lies strictly inside a directory: the directory followed
by a separator is a proper prefix of the path. -/
def isWithin (dir p : String) : Bool := (dir ++ ("/")).data.isPrefixOf p.data

/-- Splitting at slashes never yields the empty list of segments. -/
lemma splitOnSlash_ne_nil (cs : List Char) : splitOnSlash cs ≠ [] := by
  cases cs with
  | nil => simp [splitOnSlash]
  | cons c cs =>
    by_cases h : c = '/' <;> simp [splitOnSlash, h]

/-- No segment produced by splitting at slashes contains a slash. -/
lemma mem_splitOnSlash_ne_slash :
    ∀ (cs : List Char), ∀ s ∈ splitOnSlash cs, ∀ c ∈ s, c ≠ '/' := by
  intro cs
  induction cs with
  | nil =>
    intro s hs c hc
    simp [splitOnSlash] at hs
    subst hs
    simp at hc
  | cons a cs ih =>
    intro s hs c hc
    by_cases ha : a = '/'
    · simp only [splitOnSlash, if_pos ha] at hs
      rcases List.mem_cons.1 hs with rfl | hs
      · simp at hc
      · exact ih s hs c hc
    · simp only [splitOnSlash, if_neg ha] at hs
      obtain ⟨h, t, hsplit⟩ := List.exists_cons_of_ne_nil (splitOnSlash_ne_nil cs)
      rw [hsplit] at hs
      simp only [List.headD_cons, List.tail_cons] at hs
      rcases List.mem_cons.1 hs with rfl | hs
      · rcases List.mem_cons.1 hc with rfl | hc
        · exact ha
        · exact ih h (by rw [hsplit]; exact List.mem_cons_self h t) c hc
      · exact ih s (by rw [hsplit]; exact List.mem_cons_of_mem h hs) c hc

/-- Splitting distributes over an explicit slash between two parts. -/
lemma splitOnSlash_append (as bs : List Char) :
    splitOnSlash (as ++ '/' :: bs) = splitOnSlash as ++ splitOnSlash bs := by
  induction as with
  | nil => simp [splitOnSlash]
  | cons a as ih =>
    by_cases ha : a = '/'
    · simp [splitOnSlash, ha, ih]
    · obtain ⟨h, t, hsplit⟩ := List.exists_cons_of_ne_nil (splitOnSlash_ne_nil as)
      simp [splitOnSlash, ha, ih, hsplit]

/-- A slash-free character list splits into a single segment. -/
lemma splitOnSlash_no_slash :
    ∀ (cs : List Char), (∀ c ∈ cs, c ≠ '/') → splitOnSlash cs = [cs] := by
  intro cs
  induction cs with
  | nil => intro _; rfl
  | cons a cs ih =>
    intro h
    have ha : a ≠ '/' := h a (List.mem_cons_self a cs)
    simp [splitOnSlash, ha, ih (fun c hc => h c (List.mem_cons_of_mem a hc))]

/-- The last element with a default is the default or a member. -/
lemma lastD_eq_or_mem {α : Type} :
    ∀ (l : List α) (d : α), lastD l d = d ∨ lastD l d ∈ l := by
  intro l
  induction l with
  | nil => intro d; left; rfl
  | cons x xs ih =>
    intro d
    have hx : lastD (x :: xs) d = lastD xs x := rfl
    rcases ih x with h | h
    · right; rw [hx, h]; exact List.mem_cons_self x xs
    · right; rw [hx]; exact List.mem_cons_of_mem x h

/-- The component extname works on contains no slash. -/
lemma lastNonemptySegment_ne_slash (cs : List Char) :
    ∀ c ∈ lastNonemptySegment cs, c ≠ '/' := by
  intro c hc
  unfold lastNonemptySegment at hc
  rcases lastD_eq_or_mem ((splitOnSlash cs).filter (fun s => !s.isEmpty)) [] with h | h
  · rw [h] at hc; simp at hc
  · exact mem_splitOnSlash_ne_slash cs _ (List.mem_of_mem_filter h) c hc

/-- An extracted extension is drawn from the component extname works on. -/
lemma extnameChars_subset (cs : List Char) :
    extnameChars cs ⊆ lastNonemptySegment cs := by
  unfold extnameChars
  cases hd : lastDotIdx (lastNonemptySegment cs) with
  | none => exact List.nil_subset _
  | some d =>
    show (if d = 0 ∨ lastNonemptySegment cs = ['.', '.'] then []
          else (lastNonemptySegment cs).drop d) ⊆ lastNonemptySegment cs
    split
    · exact List.nil_subset _
    · exact List.drop_subset d _

/-- An extracted extension contains no slash. -/
lemma extnameChars_ne_slash (cs : List Char) :
    ∀ c ∈ extnameChars cs, c ≠ '/' := by
  intro c hc
  exact lastNonemptySegment_ne_slash cs c (extnameChars_subset cs hc)

/-- Hex rendering doubles the length. -/
lemma bytesToHexChars_length (bs : List Nat) :
    (bytesToHexChars bs).length = 2 * bs.length := by
  induction bs with
  | nil => rfl
  | cons b bs ih => simp [bytesToHexChars, ih]; omega

/-- Hex digits of values below sixteen are lowercase hex characters. -/
lemma hexDigit_hex : ∀ n, n < 16 → isLowerHexDigit (hexDigit n) = true := by decide

/-- Every character of the hex rendering of a byte list is a lowercase hex
digit. -/
lemma bytesToHexChars_hex :
    ∀ (bs : List Nat), (∀ b ∈ bs, b < 256) →
      ∀ c ∈ bytesToHexChars bs, isLowerHexDigit c = true := by
  intro bs
  induction bs with
  | nil => intro _ c hc; simp [bytesToHexChars] at hc
  | cons b bs ih =>
    intro hb c hc
    have hb0 : b < 256 := hb b (List.mem_cons_self b bs)
    simp only [bytesToHexChars, List.mem_cons] at hc
    rcases hc with rfl | rfl | hc
    · exact hexDigit_hex _ (by omega)
    · exact hexDigit_hex _ (Nat.mod_lt _ (by omega))
    · exact ih (fun x hx => hb x (List.mem_cons_of_mem b hx)) c hc

/-- A lowercase hex digit is not a slash. -/
lemma lowerHex_ne_slash (c : Char) (h : isLowerHexDigit c = true) : c ≠ '/' := by
  intro he
  subst he
  exact absurd h (by decide)

/-- The characters of a generated storage name are the hex token followed by
the extracted extension. -/
lemma genFilename_data (bs : List Nat) (orig : String) :
    (genFilename bs orig).data = bytesToHexChars bs ++ extnameChars orig.data := rfl

/-- A normalization step on a segment that is neither empty nor a dot
component appends it. -/
lemma normStep_regular (abs : Bool) (acc : List String) (s : String)
    (h1 : s ≠ ("")) (h2 : s ≠ (".")) (h3 : s ≠ ("..")) :
    normStep abs acc s = acc ++ [s] := by
  unfold normStep
  simp [h1, h2, h3]

/-- C1 counterexample: an upload whose declared MIME type is not on the
allow-list is rejected before any storage action (empty effect list), but the
response status is 500 from the framework default error handler, not a
400-class client error as the claim states. -/
theorem c1_counterexample :
    allowedTypes.contains ("text/plain") = false ∧
    (uploadPipeline ("/srv/app") (some ⟨("a.txt"), ("text/plain")⟩)
        (List.replicate 16 0) true true ("http") ("example.com")).1.status = 500 ∧
    isClientErrorStatus
      (uploadPipeline ("/srv/app") (some ⟨("a.txt"), ("text/plain")⟩)
        (List.replicate 16 0) true true ("http") ("example.com")).1.status = false ∧
    (uploadPipeline ("/srv/app") (some ⟨("a.txt"), ("text/plain")⟩)
        (List.replicate 16 0) true true ("http") ("example.com")).2 = [] := by
  decide

/-- C1 (amended): an upload whose declared MIME type is not on the allow-list
is rejected before any storage action — no filesystem write and no metadata
insert — but with a 500 server-error response produced by the default error
handler, not a 400-class response. -/
theorem c1_reject_no_side_effects (dirname : String) (f : UploadedFile)
    (bs : List Nat) (fsOk dbOk : Bool) (proto host : String)
    (h : f.mimetype ∉ allowedTypes) :
    uploadPipeline dirname (some f) bs fsOk dbOk proto host
      = (⟨500, Body.expressDefault⟩, []) := by
  simp [uploadPipeline, h]

/-- C1 witness: the amended theorem applied to a concrete rejected upload. -/
theorem c1_reject_no_side_effects_witness :
    (("application/pdf") : String) ∉ allowedTypes ∧
    uploadPipeline ("/srv") (some ⟨("b.pdf"), ("application/pdf")⟩)
        (List.replicate 16 7) false true ("https") ("h.example")
      = (⟨500, Body.expressDefault⟩, []) :=
  ⟨by decide,
   c1_reject_no_side_effects ("/srv") ⟨("b.pdf"), ("application/pdf")⟩
     (List.replicate 16 7) false true ("https") ("h.example") (by decide)⟩

/-- C2 counterexample: a delete whose filename carries a parent-directory
segment is neither rejected nor neutralized; the file it unlinks lies outside
the content directory. -/
theorem c2_counterexample :
    deletePipeline ("/srv/app") ("../secret.txt") true true
      = (⟨200, Body.deleteSuccess⟩,
         [Effect.fsUnlink ("/srv/app/secret.txt") true,
          Effect.dbDelete ("../secret.txt") true]) ∧
    pathJoin ("/srv/app") ("uploads") = ("/srv/app/uploads") ∧
    isWithin ("/srv/app/uploads") ("/srv/app/secret.txt") = false := by
  decide

/-- C2 (amended): the delete operation does not reject or neutralize the
supplied name; for every non-empty filename, the filesystem removal is
attempted at the naive join of the content directory with the name, so a name
with parent-directory segments resolves — and on success removes — a file
outside the content directory. -/
theorem c2_naive_join_target (dirname filename : String) (unlinkOk dbOk : Bool)
    (h : filename ≠ ("")) :
    (deletePipeline dirname filename unlinkOk dbOk).2.head?
      = some (Effect.fsUnlink (pathJoin (pathJoin dirname ("uploads")) filename)
          unlinkOk) := by
  cases unlinkOk <;> cases dbOk <;> simp [deletePipeline, h]

/-- C2 witness: the amended theorem applied to a concrete delete. -/
theorem c2_naive_join_target_witness :
    (("a.png") : String) ≠ ("") ∧
    (deletePipeline ("/d") ("a.png") true true).2.head?
      = some (Effect.fsUnlink (pathJoin (pathJoin ("/d") ("uploads")) ("a.png"))
          true) :=
  ⟨by decide, c2_naive_join_target ("/d") ("a.png") true true (by decide)⟩

/-- C3: in every upload run, a metadata insert appears in the effect list
only after an earlier successful filesystem write, and a run whose filesystem
write fails attempts no metadata insert at all. -/
theorem c3_write_precedes_insert (dirname : String) (fileOpt : Option UploadedFile)
    (bs : List Nat) (fsOk dbOk : Bool) (proto host : String) :
    dbInsertOnlyAfterWrite
        (uploadPipeline dirname fileOpt bs fsOk dbOk proto host).2 = true ∧
    hasDbInsert (uploadPipeline dirname fileOpt bs false dbOk proto host).2 = false := by
  cases fileOpt with
  | none => exact ⟨rfl, rfl⟩
  | some f =>
    by_cases hm : f.mimetype ∈ allowedTypes <;>
      cases fsOk <;> cases dbOk <;>
        simp [uploadPipeline, hm, dbInsertOnlyAfterWrite, hasDbInsert, insertStep]

/-- C5: when the filesystem removal of a delete request fails, the response
is 404 NotFound and no metadata-store operation is performed. -/
theorem c5_unlink_failure_notfound (dirname filename : String) (dbOk : Bool)
    (h : filename ≠ ("")) :
    deletePipeline dirname filename false dbOk
      = (⟨404, Body.fileNotFound⟩,
         [Effect.fsUnlink (pathJoin (pathJoin dirname ("uploads")) filename) false]) ∧
    hasDbDelete (deletePipeline dirname filename false dbOk).2 = false := by
  constructor <;> simp [deletePipeline, h, hasDbDelete]

/-- C5 witness: the theorem applied to a concrete failing delete. -/
theorem c5_unlink_failure_notfound_witness :
    (("nope.png") : String) ≠ ("") ∧
    deletePipeline ("/d") ("nope.png") false true
      = (⟨404, Body.fileNotFound⟩,
         [Effect.fsUnlink (pathJoin (pathJoin ("/d") ("uploads")) ("nope.png"))
            false]) :=
  ⟨by decide, (c5_unlink_failure_notfound ("/d") ("nope.png") true (by decide)).1⟩

/-- C6: in every delete run, the metadata-row delete appears only after an
earlier successful filesystem unlink, and when the unlink succeeds but the
metadata delete fails the response is a 500 server error with the file
removed and the metadata delete merely attempted. -/
theorem c6_db_delete_after_unlink (dirname filename : String)
    (unlinkOk dbOk : Bool) (h : filename ≠ ("")) :
    dbDeleteOnlyAfterUnlink
        (deletePipeline dirname filename unlinkOk dbOk).2 = true ∧
    deletePipeline dirname filename true false
      = (⟨500, Body.internalError⟩,
         [Effect.fsUnlink (pathJoin (pathJoin dirname ("uploads")) filename) true,
          Effect.dbDelete filename false]) := by
  cases unlinkOk <;> cases dbOk <;>
    simp [deletePipeline, h, dbDeleteOnlyAfterUnlink, deleteStep]

/-- C6 witness: the theorem applied to a concrete delete whose metadata
delete fails. -/
theorem c6_db_delete_after_unlink_witness :
    (("gone.mp4") : String) ≠ ("") ∧
    deletePipeline ("/d") ("gone.mp4") true false
      = (⟨500, Body.internalError⟩,
         [Effect.fsUnlink (pathJoin (pathJoin ("/d") ("uploads")) ("gone.mp4")) true,
          Effect.dbDelete ("gone.mp4") false]) :=
  ⟨by decide, (c6_db_delete_after_unlink ("/d") ("gone.mp4") true false (by decide)).2⟩

/-- C7: an upload request carrying no file payload answers 400 with an empty
effect list — no filesystem write and no metadata insert. -/
theorem c7_no_payload_400 (dirname : String) (bs : List Nat) (fsOk dbOk : Bool)
    (proto host : String) :
    uploadPipeline dirname none bs fsOk dbOk proto host
      = (⟨400, Body.noFileUploaded⟩, []) := rfl

/-- C8: a fully successful upload answers 200 with the generated storage
name, the on-disk path of the write, and the URL formed of the request
scheme, the host, the fixed uploads prefix and the storage name. -/
theorem c8_success_response (dirname : String) (f : UploadedFile)
    (bs : List Nat) (proto host : String)
    (h : f.mimetype ∈ allowedTypes) :
    uploadPipeline dirname (some f) bs true true proto host
      = (⟨200, Body.uploadSuccess (genFilename bs f.originalname)
            (pathJoin (pathJoin dirname ("uploads")) (genFilename bs f.originalname))
            (proto ++ ("://") ++ host ++ ("/uploads/")
              ++ genFilename bs f.originalname)⟩,
         [Effect.fsWrite
            (pathJoin (pathJoin dirname ("uploads")) (genFilename bs f.originalname))
            true,
          Effect.dbInsert (genFilename bs f.originalname)
            (pathJoin (pathJoin dirname ("uploads")) (genFilename bs f.originalname))
            true]) := by
  simp [uploadPipeline, h]

/-- C8 witness: the theorem applied to a concrete accepted upload. -/
theorem c8_success_response_witness :
    (("image/jpeg") : String) ∈ allowedTypes ∧
    uploadPipeline ("/d") (some ⟨("p.jpg"), ("image/jpeg")⟩)
        (List.replicate 16 1) true true ("http") ("h")
      = (⟨200, Body.uploadSuccess (genFilename (List.replicate 16 1) ("p.jpg"))
            (pathJoin (pathJoin ("/d") ("uploads"))
              (genFilename (List.replicate 16 1) ("p.jpg")))
            (("http") ++ ("://") ++ ("h") ++ ("/uploads/")
              ++ genFilename (List.replicate 16 1) ("p.jpg"))⟩,
         [Effect.fsWrite
            (pathJoin (pathJoin ("/d") ("uploads"))
              (genFilename (List.replicate 16 1) ("p.jpg")))
            true,
          Effect.dbInsert (genFilename (List.replicate 16 1) ("p.jpg"))
            (pathJoin (pathJoin ("/d") ("uploads"))
              (genFilename (List.replicate 16 1) ("p.jpg")))
            true]) :=
  ⟨by decide,
   c8_success_response ("/d") ⟨("p.jpg"), ("image/jpeg")⟩
     (List.replicate 16 1) ("http") ("h") (by decide)⟩

/-- C9: a delete request whose storage name is empty (the falsy case of the
code's presence check) answers 400 with an empty effect list — no filesystem
and no metadata action. -/
theorem c9_missing_name_400 (dirname : String) (unlinkOk dbOk : Bool) :
    deletePipeline dirname ("") unlinkOk dbOk
      = (⟨400, Body.filenameRequired⟩, []) := rfl

/-- C4: for the sixteen random bytes of `crypto.randomBytes(16)`, the
generated storage name is the 32-character lowercase-hexadecimal rendering of
the bytes concatenated with the extension extracted from the original
filename, kept verbatim with its leading dot and case. -/
theorem c4_storage_name_shape (bs : List Nat) (orig : String)
    (h16 : bs.length = 16) (hb : ∀ b ∈ bs, b < 256) :
    genFilename bs orig = bytesToHex bs ++ extname orig ∧
    (bytesToHex bs).length = 32 ∧
    ∀ c ∈ (bytesToHex bs).data, isLowerHexDigit c = true := by
  refine ⟨rfl, ?_, ?_⟩
  · show (bytesToHexChars bs).length = 32
    rw [bytesToHexChars_length, h16]
  · intro c hc
    exact bytesToHexChars_hex bs hb c hc

/-- C4 witness: the theorem applied to sixteen concrete bytes and a concrete
original filename. -/
theorem c4_storage_name_shape_witness :
    (List.replicate 16 171).length = 16 ∧
    (bytesToHex (List.replicate 16 171)).length = 32 ∧
    genFilename (List.replicate 16 171) ("photo.JPG")
      = bytesToHex (List.replicate 16 171) ++ extname ("photo.JPG") := by
  have h := c4_storage_name_shape (List.replicate 16 171) ("photo.JPG")
    (by decide) (by decide)
  exact ⟨by decide, h.2.1, h.1⟩

/-- C10: a generated storage name contains no path-separator character, and
appending it below any directory adds exactly one final segment: the
normalized segments of the write target are those of the content directory
followed by the storage name, so the stored file is a direct child of the
content directory whatever the client-supplied original filename was. -/
theorem c10_direct_child (bs : List Nat) (orig : String)
    (h16 : bs.length = 16) (hb : ∀ b ∈ bs, b < 256) :
    (∀ c ∈ (genFilename bs orig).data, c ≠ '/') ∧
    ∀ (dir : String) (abs : Bool),
      normalizeSegs abs (pathSegs (dir ++ ("/") ++ genFilename bs orig))
        = normalizeSegs abs (pathSegs dir) ++ [genFilename bs orig] := by
  have hns : ∀ c ∈ (genFilename bs orig).data, c ≠ '/' := by
    intro c hc
    rw [genFilename_data] at hc
    rcases List.mem_append.1 hc with h | h
    · exact lowerHex_ne_slash c (bytesToHexChars_hex bs hb c h)
    · exact extnameChars_ne_slash orig.data c h
  refine ⟨hns, ?_⟩
  intro dir abs
  have hbig : 32 ≤ (genFilename bs orig).data.length := by
    rw [genFilename_data, List.length_append, bytesToHexChars_length, h16]
    omega
  have hname1 : genFilename bs orig ≠ ("") := by
    intro hcontra
    rw [hcontra] at hbig
    exact absurd hbig (by decide)
  have hname2 : genFilename bs orig ≠ (".") := by
    intro hcontra
    rw [hcontra] at hbig
    exact absurd hbig (by decide)
  have hname3 : genFilename bs orig ≠ ("..") := by
    intro hcontra
    rw [hcontra] at hbig
    exact absurd hbig (by decide)
  have hdata : (dir ++ ("/") ++ genFilename bs orig).data
      = dir.data ++ '/' :: (genFilename bs orig).data := by
    rw [String.data_append, String.data_append, List.append_assoc]
    rfl
  have hsegs : pathSegs (dir ++ ("/") ++ genFilename bs orig)
      = pathSegs dir ++ [genFilename bs orig] := by
    rw [pathSegs, hdata, splitOnSlash_append, splitOnSlash_no_slash _ hns,
        List.map_append]
    rfl
  rw [hsegs]
  simp only [normalizeSegs]
  rw [List.foldl_append, List.foldl_cons, List.foldl_nil,
      normStep_regular abs _ _ hname1 hname2 hname3]

/-- C10 witness: the theorem applied to concrete bytes, a concrete original
filename and a concrete content directory. -/
theorem c10_direct_child_witness :
    normalizeSegs true (pathSegs (("/srv/app/uploads") ++ ("/")
        ++ genFilename (List.replicate 16 171) ("photo.jpg")))
      = normalizeSegs true (pathSegs ("/srv/app/uploads"))
        ++ [genFilename (List.replicate 16 171) ("photo.jpg")] :=
  (c10_direct_child (List.replicate 16 171) ("photo.jpg") (by decide) (by decide)).2
    ("/srv/app/uploads") true
